import Mathlib

/-!
Verification of the two interceptors of the `mcp-proxy` layer:

* `TokenAuthMiddleware` (src/mcp_proxy/auth_middleware.py): an HTTP access
  gate that checks a bearer token read once from the environment.
* `NonErrorServer._handle_request` (src/mcp_proxy/non_error_server.py): a
  request dispatcher that neutralizes the error indicator of outgoing
  protocol responses.

Both are shallowly embedded below, following the Python source line by line.
-/

/-! ## Access Gate: `TokenAuthMiddleware` -/

/-- Python `str.strip()`: remove leading and trailing whitespace characters. -/
def pyStrip (s : String) : String :=
  String.mk (((s.data.dropWhile Char.isWhitespace).reverse.dropWhile
    Char.isWhitespace).reverse)

/-- Python `s.startswith(p)`: `p` is an initial segment of `s`. -/
def pyStartsWith (s p : String) : Bool :=
  s.data.take p.data.length = p.data

/-- Python `s[n:]`: drop the first `n` characters of `s`. -/
def pyDrop (s : String) (n : Nat) : String :=
  String.mk (s.data.drop n)

/-- An inbound HTTP request as seen by the middleware: its URL path and the
value of its `Authorization` header.  `none` models an absent header;
`some ""` models a header that is present with an empty value (Starlette's
`request.headers.get` returns the empty string in that case). -/
structure Request where
  path : String
  authorization : Option String
deriving DecidableEq, Repr

/-- The JSON body `{error: ..., message: ...}` of a denial response. -/
structure DenyBody where
  error : String
  message : String
deriving DecidableEq, Repr

/-- Outcome of `dispatch`: either the downstream handler's response is
returned unchanged (`forwarded`), or the middleware short-circuits with a
`JSONResponse` of the given status code and body (`denied`). -/
inductive GateResult (α : Type) where
  | forwarded (resp : α)
  | denied (status : Nat) (body : DenyBody)
deriving DecidableEq, Repr

/-- The flag `self.enabled = self.auth_token is not None and len(self.auth_token.strip()) > 0`
computed in `TokenAuthMiddleware.__init__` from `os.getenv("MCP_PROXY_AUTH_TOKEN")`. -/
def authEnabled (auth_token : Option String) : Bool :=
  match auth_token with
  | none => false
  | some t => (pyStrip t).length > 0

/-- The set `self.public_paths = {"/status"}` assigned in `TokenAuthMiddleware.__init__`. -/
def public_paths : List String := ["/status"]

/-- Body of the 401 response for a missing `Authorization` header. -/
def missingHeaderBody : DenyBody :=
  { error := "Missing authorization header",
    message := "Include 'Authorization: Bearer <token>' header" }

/-- Body of the 401 response for a header that lacks the `"Bearer "` form. -/
def invalidFormatBody : DenyBody :=
  { error := "Invalid authorization format",
    message := "Use 'Bearer <token>' format" }

/-- Body of the 403 response for a wrong token. -/
def invalidTokenBody : DenyBody :=
  { error := "Invalid token",
    message := "The provided token is not valid" }

/-- Shallow embedding of `TokenAuthMiddleware.dispatch`.  `auth_token` is the
value read from the environment at construction; `call_next` is the downstream
handler.  Note that Python's `if not auth_header:` is true both when the
header is absent (`None`) and when it is the empty string, so both cases
produce the "Missing authorization header" response. -/
def dispatch {α : Type} (auth_token : Option String) (request : Request)
    (call_next : Request → α) : GateResult α :=
  if !(authEnabled auth_token) then
    .forwarded (call_next request)
  else if public_paths.contains request.path then
    .forwarded (call_next request)
  else
    match request.authorization with
    | none => .denied 401 missingHeaderBody
    | some auth_header =>
      if auth_header = "" then
        -- Python: `if not auth_header:` — the empty string is falsy
        .denied 401 missingHeaderBody
      else if !(pyStartsWith auth_header "Bearer ") then
        .denied 401 invalidFormatBody
      else
        -- token = auth_header[7:]; compare with self.auth_token
        if some (pyDrop auth_header 7) ≠ auth_token then
          .denied 403 invalidTokenBody
        else
          .forwarded (call_next request)

/-! ## Response Normalizer: `NonErrorServer._handle_request` -/

/-- The code `mcp.types.METHOD_NOT_FOUND`, the JSON-RPC code `-32601`. -/
def METHOD_NOT_FOUND : Int := -32601

/-- Embedding of `mcp.types.ErrorData`: `code`, `message` and optional `data`.
This type exposes no `isError` attribute. -/
structure ErrorData where
  code : Int
  message : String
  data : Option String
deriving DecidableEq, Repr

/-- Payload carried by a `ServerResult`'s root: either ordinary application
data, or an `ErrorData` stuffed into the envelope by the exception branch
(`response = types.ServerResult(response)`). -/
inductive RootPayload where
  | appData (s : String)
  | errData (e : ErrorData)
deriving DecidableEq, Repr

/-- The root object of a `types.ServerResult` envelope.  `isError = none`
models a root object that has no `isError` attribute at all
(`hasattr(response.root, 'isError')` is false); `some b` models an attribute
holding the boolean `b`. -/
structure Root where
  isError : Option Bool
  payload : RootPayload
deriving DecidableEq, Repr

/-- Embedding of `types.ServerResult`: a wrapper around a root object. -/
structure ServerResult where
  root : Root
deriving DecidableEq, Repr

/-- An object passed to `message.respond(...)`: either a `ServerResult`
envelope or a bare `types.ErrorData` (the `McpError` and method-not-found
branches respond with the raw error data, not an envelope). -/
inductive Sent where
  | result (r : ServerResult)
  | errorData (e : ErrorData)
deriving DecidableEq, Repr

/-- The error indicator of a sent object: the value of its `isError`
attribute when it has one, `none` when the object exposes no such field
(bare `ErrorData` never does). -/
def errorIndicator : Sent → Option Bool
  | .result r => r.root.isError
  | .errorData _ => none

/-- Outcome of awaiting the handler coroutine on the request: normal
completion with a `ServerResult`, a raised `McpError` carrying its
`err.error : ErrorData` payload, or any other raised exception with its
textual description `str(err)`. -/
inductive HandlerOutcome where
  | ok (r : ServerResult)
  | mcpError (e : ErrorData)
  | exn (msg : String)
deriving DecidableEq, Repr

/-- The request-scoped context stored in the `request_ctx` context variable:
request id, request metadata (session and lifespan context are opaque
collaborators and elided). -/
structure RequestCtx where
  request_id : Nat
  request_meta : Option String
deriving DecidableEq, Repr

/-- Python `token = request_ctx.set(v)`: returns the new contextvar state together
with the token, which records the state being replaced. -/
def ctxSet (st : Option RequestCtx) (v : RequestCtx) :
    Option RequestCtx × Option RequestCtx :=
  (some v, st)

/-- Python `request_ctx.reset(token)`: restores the state recorded in the token. -/
def ctxReset (tok : Option RequestCtx) : Option RequestCtx := tok

/-- Observable trace of one `_handle_request` dispatch: the list of objects
passed to `message.respond` in order, the exception re-raised to the caller
(if any), and the state of the `request_ctx` context variable when the
coroutine returns or raises. -/
structure DispatchTrace where
  sends : List Sent
  raised : Option String
  finalCtx : Option RequestCtx
deriving DecidableEq, Repr

/-- Shallow embedding of `NonErrorServer._handle_request`.

`request_handlers` models `self.request_handlers` together with the awaited
handler call: looking up the request's type tag yields `none` when
`type(req) not in self.request_handlers`, and otherwise the outcome the
handler produces for this request.  `rctx` is the `RequestContext` built from
the message and session; `ctx0` is the state of the `request_ctx` context
variable when the dispatch starts. -/
def handle_request (request_handlers : String → Option HandlerOutcome)
    (reqType : String) (raise_exceptions : Bool)
    (ctx0 : Option RequestCtx) (rctx : RequestCtx) : DispatchTrace :=
  match request_handlers reqType with
  | some outcome =>
    -- token = request_ctx.set(RequestContext(...))
    let setRes := ctxSet ctx0 rctx
    let token := setRes.2
    -- try-body: the three completion paths
    let body : List Sent × Option String :=
      match outcome with
      | .ok response =>
        -- if hasattr(response.root, 'isError') and response.root.isError:
        --     response.root.isError = False
        let response :=
          if response.root.isError.isSome ∧ response.root.isError = some true then
            { root := { response.root with isError := some false } }
          else response
        ([.result response], none)
      | .mcpError e =>
        -- response = err.error; ErrorData has no isError attribute, so the
        -- `if hasattr(response, 'isError')` guard is always false here
        ([.errorData e], none)
      | .exn msg =>
        if raise_exceptions then
          ([], some msg)
        else
          -- response = types.ErrorData(code=0, message=str(err), data=None)
          -- response = types.ServerResult(response)
          let response : ServerResult :=
            { root := { isError := none, payload := .errData ⟨0, msg, none⟩ } }
          -- if hasattr(response.root, 'isError'): response.root.isError = False
          let response :=
            if response.root.isError.isSome then
              { root := { response.root with isError := some false } }
            else response
          ([.result response], none)
    -- finally: if token is not None: request_ctx.reset(token)
    let finalCtx := ctxReset token
    -- await message.respond(response) — skipped when the exception re-raises
    { sends := body.1, raised := body.2, finalCtx := finalCtx }
  | none =>
    -- error_response = types.ErrorData(code=types.METHOD_NOT_FOUND,
    --                                  message="Method not found")
    { sends := [.errorData ⟨METHOD_NOT_FOUND, "Method not found", none⟩],
      raised := none,
      finalCtx := ctx0 }

/-! ## Theorems about the Access Gate -/

/-- A header that passes the `"Bearer "` format check is in particular not
the empty string. -/
theorem pyStartsWith_bearer_ne_empty (h : String)
    (hs : pyStartsWith h "Bearer " = true) : h ≠ "" := by
  intro he
  subst he
  simp [pyStartsWith] at hs

/-- C1 (counterexample): the claim's check order treats only an *absent*
header as "Missing authorization header".  The code's `if not auth_header:`
is also true for a header that is present with the empty-string value, so for
such a request (gating enabled, non-public path, `Authorization` present and
equal to `""`, which does not start with `"Bearer "`) the code answers 401
with the missing-header body, not the invalid-format body the claim
prescribes. -/
theorem dispatch_empty_header_counterexample :
    authEnabled (some "s3cr3t") = true ∧
    public_paths.contains "/test" = false ∧
    (Request.mk "/test" (some "")).authorization ≠ none ∧
    pyStartsWith "" "Bearer " = false ∧
    dispatch (some "s3cr3t") ⟨"/test", some ""⟩ (fun _ => (0 : Nat)) ≠
      GateResult.denied 401 invalidFormatBody ∧
    dispatch (some "s3cr3t") ⟨"/test", some ""⟩ (fun _ => (0 : Nat)) =
      GateResult.denied 401 missingHeaderBody := by
  refine ⟨by decide, by decide, by decide, by decide, by decide, by decide⟩

/-- C1 (amended): for every request on a non-public path while gating is
enabled, dispatch decides in order: absent or empty-string header ⇒ 401 with
the missing-header body; header not starting with the literal `"Bearer "` ⇒
401 with the invalid-format body; token after the 7-character prefix differs
from the shared secret ⇒ 403 with the invalid-token body; matching token ⇒
the downstream handler's response returned unchanged. -/
theorem dispatch_gate_decision {α : Type} (secret : String) (request : Request)
    (call_next : Request → α)
    (hen : authEnabled (some secret) = true)
    (hpub : public_paths.contains request.path = false) :
    ((request.authorization = none ∨ request.authorization = some "") →
      dispatch (some secret) request call_next =
        .denied 401 missingHeaderBody) ∧
    (∀ h, request.authorization = some h → h ≠ "" →
      pyStartsWith h "Bearer " = false →
      dispatch (some secret) request call_next =
        .denied 401 invalidFormatBody) ∧
    (∀ h, request.authorization = some h →
      pyStartsWith h "Bearer " = true → pyDrop h 7 ≠ secret →
      dispatch (some secret) request call_next =
        .denied 403 invalidTokenBody) ∧
    (∀ h, request.authorization = some h →
      pyStartsWith h "Bearer " = true → pyDrop h 7 = secret →
      dispatch (some secret) request call_next =
        .forwarded (call_next request)) := by
  have hpub' : request.path ∉ public_paths := by simpa using hpub
  refine ⟨?_, ?_, ?_, ?_⟩
  · rintro (habs | hemp)
    · simp [dispatch, hen, hpub', habs]
    · simp [dispatch, hen, hpub', hemp]
  · intro h hsome hne hfmt
    simp [dispatch, hen, hpub', hsome, hne, hfmt]
  · intro h hsome hfmt htok
    have hne := pyStartsWith_bearer_ne_empty h hfmt
    simp [dispatch, hen, hpub', hsome, hne, hfmt, htok]
  · intro h hsome hfmt htok
    have hne := pyStartsWith_bearer_ne_empty h hfmt
    simp [dispatch, hen, hpub', hsome, hne, hfmt, htok]

/-- C1 witness: with secret `"s3cr3t"`, a request to `/test` carrying
`Authorization: Bearer s3cr3t` is forwarded. -/
theorem dispatch_gate_decision_witness :
    dispatch (some "s3cr3t") ⟨"/test", some "Bearer s3cr3t"⟩
      (fun _ => (7 : Nat)) = .forwarded 7 := by
  have h := dispatch_gate_decision (α := Nat) "s3cr3t"
    ⟨"/test", some "Bearer s3cr3t"⟩ (fun _ => 7) (by decide) (by decide)
  exact h.2.2.2 "Bearer s3cr3t" rfl (by decide) (by decide)

/-- C3: if the `MCP_PROXY_AUTH_TOKEN` value read at construction is absent or
blank after stripping, the `enabled` flag is false and every request is
forwarded to the downstream handler, whatever its path or header: no 401 or
403 is ever produced. -/
theorem auth_disabled_forwards {α : Type} (auth_token : Option String)
    (hblank : auth_token = none ∨ ∃ t, auth_token = some t ∧ pyStrip t = "") :
    authEnabled auth_token = false ∧
    ∀ (request : Request) (call_next : Request → α),
      dispatch auth_token request call_next = .forwarded (call_next request) := by
  have hen : authEnabled auth_token = false := by
    rcases hblank with habs | ⟨t, hsome, htrim⟩
    · simp [authEnabled, habs]
    · simp [authEnabled, hsome, htrim]
  refine ⟨hen, fun request call_next => ?_⟩
  simp [dispatch, hen]

/-- C3 witness: a whitespace-only secret disables gating, and a request with
a bad header on a protected path is still forwarded. -/
theorem auth_disabled_forwards_witness :
    authEnabled (some "   ") = false ∧
    dispatch (some "   ") ⟨"/test", some "garbage"⟩ (fun _ => (3 : Nat)) =
      .forwarded 3 := by
  have h := auth_disabled_forwards (α := Nat) (some "   ")
    (Or.inr ⟨"   ", rfl, by decide⟩)
  exact ⟨h.1, h.2 ⟨"/test", some "garbage"⟩ (fun _ => 3)⟩

/-- C4: a request whose path is exactly `/status` is always forwarded,
whatever the gating state and the `Authorization` header, and `/status` is
the only member of the public-path set. -/
theorem status_always_forwarded {α : Type} (auth_token : Option String)
    (request : Request) (call_next : Request → α)
    (hpath : request.path = "/status") :
    dispatch auth_token request call_next = .forwarded (call_next request) ∧
    ∀ p : String, public_paths.contains p = true ↔ p = "/status" := by
  constructor
  · cases hen : authEnabled auth_token
    · simp [dispatch, hen]
    · simp [dispatch, hen, hpath, public_paths]
  · intro p
    simp [public_paths]

/-- C4 witness: `/status` is forwarded with gating enabled and no header. -/
theorem status_always_forwarded_witness :
    dispatch (some "s3cr3t") ⟨"/status", none⟩ (fun _ => (1 : Nat)) =
      .forwarded 1 ∧
    (public_paths.contains "/status" = true ↔ "/status" = "/status") := by
  have h := status_always_forwarded (α := Nat) (some "s3cr3t")
    ⟨"/status", none⟩ (fun _ => 1) rfl
  exact ⟨h.1, h.2 "/status"⟩

/-- C10: with gating enabled (non-blank secret) and a non-public path, the
header `"Bearer "` passes the format check (so no 401) and is denied 403 with
the invalid-token body, because the extracted empty token cannot equal the
non-blank secret. -/
theorem bearer_empty_token_denied {α : Type} (secret : String)
    (request : Request) (call_next : Request → α)
    (hen : authEnabled (some secret) = true)
    (hpub : public_paths.contains request.path = false)
    (hauth : request.authorization = some "Bearer ") :
    pyStartsWith "Bearer " "Bearer " = true ∧
    dispatch (some secret) request call_next = .denied 403 invalidTokenBody := by
  have hsec : secret ≠ "" := by
    intro he
    subst he
    simp [authEnabled, pyStrip] at hen
  refine ⟨by decide, ?_⟩
  have hpub' : request.path ∉ public_paths := by simpa using hpub
  have hfmt : pyStartsWith "Bearer " "Bearer " = true := by decide
  have htok : pyDrop "Bearer " 7 ≠ secret := by
    have hd : pyDrop "Bearer " 7 = "" := by decide
    rw [hd]
    exact fun h => hsec h.symm
  simp [dispatch, hen, hpub', hauth, hfmt, htok]

/-- C10 witness: secret `"s3cr3t"`, request to `/test` with header
`"Bearer "` is denied 403. -/
theorem bearer_empty_token_denied_witness :
    pyStartsWith "Bearer " "Bearer " = true ∧
    dispatch (some "s3cr3t") ⟨"/test", some "Bearer "⟩ (fun _ => (0 : Nat)) =
      .denied 403 invalidTokenBody := by
  exact bearer_empty_token_denied (α := Nat) "s3cr3t" ⟨"/test", some "Bearer "⟩
    (fun _ => 0) (by decide) (by decide) rfl

/-! ## Theorems about the Response Normalizer -/

/-- C2: every object the normalizer sends — normal completion, `McpError`
payload, converted unrecognized failure, or method-not-found — has an error
indicator that is `false` or absent; none carries `isError = true`. -/
theorem normalizer_never_sends_error_true
    (request_handlers : String → Option HandlerOutcome) (reqType : String)
    (raise_exceptions : Bool) (ctx0 : Option RequestCtx) (rctx : RequestCtx) :
    ∀ s ∈ (handle_request request_handlers reqType raise_exceptions
            ctx0 rctx).sends,
      errorIndicator s ≠ some true := by
  unfold handle_request
  cases hl : request_handlers reqType with
  | none => simp [errorIndicator]
  | some outcome =>
    cases outcome with
    | ok r =>
      by_cases hie : r.root.isError.isSome ∧ r.root.isError = some true
      · simp [hie, errorIndicator]
      · simp only [hie, if_false]
        intro s hs
        simp at hs
        subst hs
        simp [errorIndicator]
        intro htrue
        exact hie ⟨by rw [htrue]; rfl, htrue⟩
    | mcpError e => simp [errorIndicator]
    | exn msg =>
      cases raise_exceptions <;> simp [errorIndicator]

/-- C2 witness: a handler result arriving with `isError = true` is sent with
`isError = false`, which is not `true`. -/
theorem normalizer_never_sends_error_true_witness :
    Sent.result ⟨⟨some false, .appData "x"⟩⟩ ∈
      (handle_request (fun _ => some (.ok ⟨⟨some true, .appData "x"⟩⟩))
        "tools/call" false none ⟨1, none⟩).sends ∧
    errorIndicator (Sent.result ⟨⟨some false, .appData "x"⟩⟩) ≠ some true := by
  refine ⟨by decide, ?_⟩
  exact normalizer_never_sends_error_true
    (fun _ => some (.ok ⟨⟨some true, .appData "x"⟩⟩)) "tools/call" false none
    ⟨1, none⟩ (Sent.result ⟨⟨some false, .appData "x"⟩⟩) (by decide)

/-- C5 (counterexample): when the handler raises an `McpError`, the sent
object is the bare `ErrorData` payload, which exposes no error indicator at
all — its indicator is absent, not `false` as the claim states. -/
theorem mcp_error_indicator_absent_counterexample :
    (handle_request (fun _ => some (.mcpError ⟨7, "bad input", none⟩))
        "tools/call" false none ⟨1, none⟩).sends =
      [Sent.errorData ⟨7, "bad input", none⟩] ∧
    errorIndicator (Sent.errorData ⟨7, "bad input", none⟩) = none ∧
    errorIndicator (Sent.errorData ⟨7, "bad input", none⟩) ≠ some false := by
  refine ⟨by decide, rfl, by decide⟩

/-- C5 (amended): when a handler raises a recognized protocol error, the
normalizer sends the error's carried payload as the response body; the
payload type exposes no error indicator, so the sent object's indicator is
absent — in particular it is never `true` — and nothing is re-raised. -/
theorem mcp_error_payload_preserved
    (request_handlers : String → Option HandlerOutcome) (reqType : String)
    (e : ErrorData) (raise_exceptions : Bool) (ctx0 : Option RequestCtx)
    (rctx : RequestCtx)
    (hl : request_handlers reqType = some (.mcpError e)) :
    (handle_request request_handlers reqType raise_exceptions
        ctx0 rctx).sends = [Sent.errorData e] ∧
    errorIndicator (Sent.errorData e) = none ∧
    (handle_request request_handlers reqType raise_exceptions
        ctx0 rctx).raised = none := by
  unfold handle_request
  rw [hl]
  exact ⟨rfl, rfl, rfl⟩

/-- C5 witness: a concrete `McpError` payload is forwarded verbatim. -/
theorem mcp_error_payload_preserved_witness :
    (handle_request (fun _ => some (.mcpError ⟨7, "bad input", none⟩))
        "tools/call" false none ⟨1, none⟩).sends =
      [Sent.errorData ⟨7, "bad input", none⟩] ∧
    errorIndicator (Sent.errorData (⟨7, "bad input", none⟩ : ErrorData)) =
      none ∧
    (handle_request (fun _ => some (.mcpError ⟨7, "bad input", none⟩))
        "tools/call" false none ⟨1, none⟩).raised = none := by
  exact mcp_error_payload_preserved
    (fun _ => some (.mcpError ⟨7, "bad input", none⟩)) "tools/call"
    ⟨7, "bad input", none⟩ false none ⟨1, none⟩ rfl

/-- Whether the dispatch re-raises: strict propagation is requested and the
handler raised an unrecognized failure. -/
def exnPropagates (lookup : Option HandlerOutcome)
    (raise_exceptions : Bool) : Bool :=
  raise_exceptions &&
    (match lookup with
     | some (.exn _) => true
     | _ => false)

/-- The re-raised exception of a dispatch, as a function of the handler
lookup and the strict-propagation flag: only an unrecognized failure under
strict propagation escapes. -/
theorem handle_request_raised_eq
    (request_handlers : String → Option HandlerOutcome) (reqType : String)
    (raise_exceptions : Bool) (ctx0 : Option RequestCtx) (rctx : RequestCtx) :
    (handle_request request_handlers reqType raise_exceptions
        ctx0 rctx).raised =
      (match request_handlers reqType, raise_exceptions with
       | some (.exn m), true => some m
       | _, _ => none) := by
  unfold handle_request
  cases request_handlers reqType with
  | none => cases raise_exceptions <;> rfl
  | some outcome =>
    cases outcome with
    | ok r =>
      cases raise_exceptions <;>
        by_cases hie : r.root.isError.isSome ∧ r.root.isError = some true <;>
        simp [hie]
    | mcpError e => cases raise_exceptions <;> rfl
    | exn m => cases raise_exceptions <;> rfl

/-- C6: for a handler raising an unrecognized failure, with strict
propagation the failure is re-raised and nothing is sent; otherwise a generic
payload (code 0, message = the failure's text, no data) is wrapped in an
envelope with no error indicator and sent.  Moreover this is the only path on
which any dispatch re-raises. -/
theorem unrecognized_failure_policy
    (request_handlers : String → Option HandlerOutcome) (reqType : String)
    (msg : String) (ctx0 : Option RequestCtx) (rctx : RequestCtx)
    (hl : request_handlers reqType = some (.exn msg)) :
    ((handle_request request_handlers reqType true ctx0 rctx).raised =
        some msg ∧
     (handle_request request_handlers reqType true ctx0 rctx).sends = []) ∧
    ((handle_request request_handlers reqType false ctx0 rctx).raised =
        none ∧
     (handle_request request_handlers reqType false ctx0 rctx).sends =
       [.result ⟨⟨none, .errData ⟨0, msg, none⟩⟩⟩]) ∧
    (∀ (h2 : String → Option HandlerOutcome) (rt : String) (rex : Bool)
       (c0 : Option RequestCtx) (rc : RequestCtx),
      (handle_request h2 rt rex c0 rc).raised ≠ none →
      rex = true ∧
        ∃ m, h2 rt = some (.exn m) ∧
          (handle_request h2 rt rex c0 rc).raised = some m) := by
  refine ⟨?_, ?_, ?_⟩
  · unfold handle_request
    rw [hl]
    exact ⟨rfl, rfl⟩
  · unfold handle_request
    rw [hl]
    exact ⟨rfl, rfl⟩
  · intro h2 rt rex c0 rc hr
    rw [handle_request_raised_eq] at hr
    rw [handle_request_raised_eq]
    cases hl2 : h2 rt with
    | none => rw [hl2] at hr; simp at hr
    | some outcome =>
      rw [hl2] at hr
      cases outcome with
      | ok r => simp at hr
      | mcpError e => simp at hr
      | exn m =>
        cases rex with
        | false => simp at hr
        | true => exact ⟨rfl, m, rfl, rfl⟩

/-- C6 witness: a handler failure `"boom"`; strict propagation re-raises with
no send, default mode sends the wrapped generic payload. -/
theorem unrecognized_failure_policy_witness :
    ((handle_request (fun _ => some (.exn "boom")) "tools/call" true none
        ⟨1, none⟩).raised = some "boom" ∧
     (handle_request (fun _ => some (.exn "boom")) "tools/call" true none
        ⟨1, none⟩).sends = []) ∧
    ((handle_request (fun _ => some (.exn "boom")) "tools/call" false none
        ⟨1, none⟩).raised = none ∧
     (handle_request (fun _ => some (.exn "boom")) "tools/call" false none
        ⟨1, none⟩).sends =
       [.result ⟨⟨none, .errData ⟨0, "boom", none⟩⟩⟩]) := by
  have h := unrecognized_failure_policy (fun _ => some (.exn "boom"))
    "tools/call" "boom" none ⟨1, none⟩ rfl
  exact ⟨h.1, h.2.1⟩

/-- C7: when no handler is registered for the request type, the dispatch
sends exactly the synthesized `ErrorData` with code `METHOD_NOT_FOUND` and
message `"Method not found"`, raw and unwrapped — it carries no error
indicator to override — and nothing is raised. -/
theorem method_not_found_response
    (request_handlers : String → Option HandlerOutcome) (reqType : String)
    (raise_exceptions : Bool) (ctx0 : Option RequestCtx) (rctx : RequestCtx)
    (hl : request_handlers reqType = none) :
    handle_request request_handlers reqType raise_exceptions ctx0 rctx =
      { sends := [.errorData ⟨METHOD_NOT_FOUND, "Method not found", none⟩],
        raised := none,
        finalCtx := ctx0 } ∧
    errorIndicator
      (.errorData ⟨METHOD_NOT_FOUND, "Method not found", none⟩) = none := by
  unfold handle_request
  rw [hl]
  exact ⟨rfl, rfl⟩

/-- C7 witness: a request type with no registered handler gets the
method-not-found payload. -/
theorem method_not_found_response_witness :
    handle_request (fun _ => none) "nope/method" false none ⟨1, none⟩ =
      { sends := [.errorData ⟨METHOD_NOT_FOUND, "Method not found", none⟩],
        raised := none,
        finalCtx := none } ∧
    errorIndicator
      (.errorData ⟨METHOD_NOT_FOUND, "Method not found", none⟩) = none := by
  exact method_not_found_response (fun _ => none) "nope/method" false none
    ⟨1, none⟩ rfl

/-- C8: whenever a handler is found, the context binding is set for the
handler (`ctxSet` stores the prior state in the token) and the contextvar is
restored to its prior state before the dispatch returns or raises, on every
path: normal completion, `McpError`, converted failure, and the
strict-propagation re-raise. -/
theorem ctx_binding_released (outcome : HandlerOutcome)
    (request_handlers : String → Option HandlerOutcome) (reqType : String)
    (raise_exceptions : Bool) (ctx0 : Option RequestCtx) (rctx : RequestCtx)
    (hl : request_handlers reqType = some outcome) :
    (ctxSet ctx0 rctx).1 = some rctx ∧
    (handle_request request_handlers reqType raise_exceptions
        ctx0 rctx).finalCtx = ctx0 := by
  refine ⟨rfl, ?_⟩
  unfold handle_request
  rw [hl]
  cases outcome with
  | ok r => rfl
  | mcpError e => rfl
  | exn msg => cases raise_exceptions <;> rfl

/-- C8 witness: the binding is restored even on the re-raise path. -/
theorem ctx_binding_released_witness :
    (ctxSet (some ⟨0, none⟩) ⟨1, none⟩).1 = some ⟨1, none⟩ ∧
    (handle_request (fun _ => some (.exn "boom")) "tools/call" true
        (some ⟨0, none⟩) ⟨1, none⟩).finalCtx = some ⟨0, none⟩ := by
  exact ctx_binding_released (.exn "boom") (fun _ => some (.exn "boom"))
    "tools/call" true (some ⟨0, none⟩) ⟨1, none⟩ rfl

/-- C9 (counterexample): with strict propagation requested and a handler
raising an unrecognized failure, the dispatch performs zero sends — the claim
"never zero" fails on this path. -/
theorem one_send_counterexample :
    (handle_request (fun _ => some (.exn "boom")) "tools/call" true none
        ⟨1, none⟩).sends.length ≠ 1 ∧
    (handle_request (fun _ => some (.exn "boom")) "tools/call" true none
        ⟨1, none⟩).sends = [] ∧
    (handle_request (fun _ => some (.exn "boom")) "tools/call" true none
        ⟨1, none⟩).raised = some "boom" := by
  refine ⟨by decide, by decide, by decide⟩

/-- C9 (amended): every dispatch performs exactly one send, except when
strict propagation is requested and the handler raises an unrecognized
failure, in which case it performs zero sends and re-raises; in particular
never more than one send and no retry. -/
theorem one_send_per_dispatch
    (request_handlers : String → Option HandlerOutcome) (reqType : String)
    (raise_exceptions : Bool) (ctx0 : Option RequestCtx) (rctx : RequestCtx) :
    (handle_request request_handlers reqType raise_exceptions
        ctx0 rctx).sends.length =
      (if exnPropagates (request_handlers reqType) raise_exceptions
       then 0 else 1) := by
  unfold handle_request exnPropagates
  cases hl : request_handlers reqType with
  | none => cases raise_exceptions <;> rfl
  | some outcome =>
    cases outcome with
    | ok r =>
      by_cases hie : r.root.isError.isSome ∧ r.root.isError = some true <;>
        cases raise_exceptions <;> simp [hie]
    | mcpError e => cases raise_exceptions <;> rfl
    | exn msg => cases raise_exceptions <;> rfl
